import Mathlib

/-!
Shallow embedding of the slide-deck core of
src/src/components/PresentationView.tsx.

The component keeps three pieces of React state: the current slide index,
the edit-mode flag and the processed presentation.  We model them as one
session record and every handler as a pure state transformer.  The
nondeterministic parts of the source (uuidv4 and the construction
timestamp) are passed in as opaque string parameters.
-/

namespace PresentAI

/-- Per-slide style hints.  The slide-derivation effect only ever builds the
empty style object; the view reads alignment, textColor, backgroundColor,
gradient and fontSize from it, so those are the modelled fields. -/
structure SlideStyle where
  alignment : Option String := none
  textColor : Option String := none
  backgroundColor : Option String := none
  gradient : Option String := none
  fontSize : Option String := none
deriving DecidableEq, Repr

/-- One slide, mirroring the object literal built in the slide-derivation
effect (lines 49-54): title, content, imageUrl, style, in source order. -/
structure SlideContent where
  title : String
  content : String
  imageUrl : String
  style : SlideStyle
deriving DecidableEq, Repr

/-- The Presentation record (lines 32-37 and 57-62): id, createdAt, title,
slides, in source order. -/
structure Presentation where
  id : String
  createdAt : String
  title : String
  slides : List SlideContent
deriving DecidableEq, Repr

/-- The component-local state of PresentationView: currentSlideIndex
(line 30, a JS number, modelled as Int), isEditing (line 31) and
processedPresentation (lines 32-37). -/
structure Session where
  currentSlideIndex : Int
  isEditing : Bool
  processedPresentation : Presentation
deriving DecidableEq, Repr

/-- Helper for the split at line 47.  JS String.prototype.split with the
literal separator string consumes non-overlapping occurrences of the
separator left to right; here the separator is the two-character string
of two newline characters.  The accumulator holds the current block in
reverse. -/
def splitNNAux : List Char → List Char → List String
  | [], acc => [String.mk acc.reverse]
  | '\n' :: '\n' :: rest, acc => String.mk acc.reverse :: splitNNAux rest []
  | c :: rest, acc => splitNNAux rest (c :: acc)

/-- Line 47: presentation.result.split of the two-newline separator. -/
def splitNN (s : String) : List String := splitNNAux s.data []

/-- Lines 46-54: split the raw text, drop falsy (that is, empty-string)
blocks, and number the surviving blocks.  filter Boolean keeps every
non-empty string, whitespace-only ones included; the map index is the
position in the filtered array. -/
def buildSlides (rawText : String) : List SlideContent :=
  (((splitNN rawText).filter (fun b => b ≠ "")).enum).map
    (fun p => { title := "Slide " ++ toString (p.1 + 1),
                content := p.2,
                imageUrl := "",
                style := {} })

/-- Lines 57-62: the Presentation value installed by the slide-derivation
effect.  uuidv4 and the timestamp are opaque parameters id and createdAt;
the stored title is the caller-supplied title. -/
def build (rawText : String) (title : String) (id createdAt : String) : Presentation :=
  { id := id, createdAt := createdAt, title := title, slides := buildSlides rawText }

/-- Lines 40-42: the defaultTitle heuristic.  JS truthiness of
presentation.source on a string is non-emptiness. -/
def defaultTitle (source : String) (title : String) : String :=
  if source ≠ "" ∧ source ≠ "gemini-api" then source else title

/-- Lines 45-64: the slide-derivation effect, fired when presentation.result
or presentation.source changes.  Its body only calls
setProcessedPresentation; currentSlideIndex and isEditing are untouched.
The source parameter is in the dependency array but unused in the body. -/
def rebuild (s : Session) (rawText : String) (source : String) (title : String)
    (id createdAt : String) : Session :=
  { s with processedPresentation := build rawText title id createdAt }

/-- Lines 68-70. -/
def goToPreviousSlide (s : Session) : Session :=
  { s with currentSlideIndex :=
      if s.currentSlideIndex > 0 then s.currentSlideIndex - 1 else s.currentSlideIndex }

/-- Lines 72-76. -/
def goToNextSlide (s : Session) : Session :=
  { s with currentSlideIndex :=
      if s.currentSlideIndex < (s.processedPresentation.slides.length : Int) - 1
        then s.currentSlideIndex + 1 else s.currentSlideIndex }

/-- Lines 227-235: clicking a slide dot runs setCurrentSlideIndex(index)
with no bounds check of its own. -/
def jumpTo (s : Session) (index : Int) : Session :=
  { s with currentSlideIndex := index }

/-- The two field names updateSlideContent is invoked with (lines 185 and
190). -/
inductive SlideField where
  | title : SlideField
  | content : SlideField
deriving DecidableEq, Repr

/-- The computed-key spread of lines 105-108 restricted to one slide. -/
def setSlideField (sl : SlideContent) (field : SlideField) (value : String) : SlideContent :=
  match field with
  | SlideField.title => { sl with title := value }
  | SlideField.content => { sl with content := value }

/-- Lines 103-114: copy the slides array, overwrite the entry at
currentSlideIndex with a copy of the old entry whose named field is value,
and install the new array.  The session keeps the index inside the array
(the in-range case is the only one the component can reach from its own
UI), so the out-of-range match arm is never taken under the theorems
below. -/
def updateSlideContent (s : Session) (field : SlideField) (value : String) : Session :=
  let idx := s.currentSlideIndex.toNat
  let slides := s.processedPresentation.slides
  let newSlides :=
    match slides[idx]? with
    | some sl => slides.set idx (setSlideField sl field value)
    | none => slides
  { s with processedPresentation := { s.processedPresentation with slides := newSlides } }

/-- Lines 90-101: when editing, invoke onSave (if provided) with the current
processedPresentation, then flip isEditing.  The second component collects
the onSave invocations of this call, in order. -/
def handleEditToggle (hasOnSave : Bool) (s : Session) : Session × List Presentation :=
  ({ s with isEditing := !s.isEditing },
   if s.isEditing && hasOnSave then [s.processedPresentation] else [])

/-- JSON value shape, enough to state what JSON.stringify produces. -/
inductive Json where
  | str : String → Json
  | arr : List Json → Json
  | obj : List (String × Json) → Json

/-- An optional field contributes one key when present, none when absent,
matching JSON.stringify dropping absent object properties. -/
def optField (k : String) (v : Option String) : List (String × Json) :=
  match v with
  | none => []
  | some s => [(k, Json.str s)]

/-- Serialization of a style object: the present fields, in declaration
order. -/
def styleJson (st : SlideStyle) : Json :=
  Json.obj (optField "alignment" st.alignment ++ optField "textColor" st.textColor ++
    optField "backgroundColor" st.backgroundColor ++ optField "gradient" st.gradient ++
    optField "fontSize" st.fontSize)

/-- JSON.stringify of one slide: keys in insertion order title, content,
imageUrl, style (lines 49-54 set that order and every later update is a
spread that preserves it). -/
def slideJson (sl : SlideContent) : Json :=
  Json.obj [("title", Json.str sl.title), ("content", Json.str sl.content),
    ("imageUrl", Json.str sl.imageUrl), ("style", styleJson sl.style)]

/-- Line 80: JSON.stringify(processedPresentation); keys in insertion order
id, createdAt, title, slides (lines 57-62). -/
def presentationJson (p : Presentation) : Json :=
  Json.obj [("id", Json.str p.id), ("createdAt", Json.str p.createdAt),
    ("title", Json.str p.title), ("slides", Json.arr (p.slides.map slideJson))]

/-- The keys of a JSON object, in order. -/
def jsonKeys : Json → List String
  | Json.obj fields => fields.map Prod.fst
  | _ => []

/-- Field access in a JSON object. -/
def jsonField (j : Json) (k : String) : Option Json :=
  match j with
  | Json.obj fields => fields.lookup k
  | _ => none

/-- The character class of the regular expression used at line 84: the
ECMAScript whitespace class, which is WhiteSpace plus LineTerminator, so
TAB, LF, VT, FF, CR, SP, NBSP (U+00A0), OGHAM SPACE MARK (U+1680), the
U+2000 to U+200A spaces, LINE SEPARATOR (U+2028), PARAGRAPH SEPARATOR
(U+2029), NARROW NO-BREAK SPACE (U+202F), MEDIUM MATHEMATICAL SPACE
(U+205F), IDEOGRAPHIC SPACE (U+3000) and ZWNBSP (U+FEFF). -/
def isJsWhitespace (c : Char) : Bool :=
  c == ' ' || c == '\t' || c == '\n' || c == '\r' || c == '\x0b' || c == '\x0c' ||
  c.toNat == 0xA0 || c.toNat == 0x1680 ||
  (0x2000 ≤ c.toNat && c.toNat ≤ 0x200A) ||
  c.toNat == 0x2028 || c.toNat == 0x2029 || c.toNat == 0x202F ||
  c.toNat == 0x205F || c.toNat == 0x3000 || c.toNat == 0xFEFF

/-- Global replacement of every maximal whitespace run by one underscore,
as the regex replace at line 84 does.  The flag records whether the
previous character was part of a run already replaced. -/
def collapseWsAux : List Char → Bool → List Char
  | [], _ => []
  | c :: cs, inRun =>
    if isJsWhitespace c then
      if inRun then collapseWsAux cs true else '_' :: collapseWsAux cs true
    else c :: collapseWsAux cs false

/-- Line 84: title.replace of every whitespace run by an underscore. -/
def collapseWs (t : String) : String := String.mk (collapseWsAux t.data false)

/-- Lines 83-84: the download attribute value. -/
def exportFilename (p : Presentation) : String := collapseWs p.title ++ ".json"

/-- Lines 78-88: the artifact offered for download, as filename plus the
JSON value serialized into the data URI. -/
def handleDownload (p : Presentation) : String × Json :=
  (exportFilename p, presentationJson p)

/-- A concrete three-slide deck used by the closed theorems below. -/
def demoDeck : Presentation := build "a\n\nb\n\nc" "Demo deck" "id-0" "2026-01-01T00:00:00Z"

/-- The contents of the built slides are exactly the non-empty blocks of the
split, in order. -/
lemma buildSlides_map_content (rawText : String) :
    (buildSlides rawText).map SlideContent.content =
      (splitNN rawText).filter (fun b => b ≠ "") := by
  unfold buildSlides
  rw [List.map_map]
  rw [show (SlideContent.content ∘ fun p : Nat × String =>
      ({ title := "Slide " ++ toString (p.1 + 1), content := p.2, imageUrl := "",
         style := {} } : SlideContent)) = Prod.snd from rfl]
  exact List.enum_map_snd _

/-- C1: the claim describes the split as on runs of two or more newlines
with whitespace-only blocks dropped; the code splits on exact two-newline
occurrences and drops only empty-string blocks, so the stated example has
a third content of one newline followed by Third point, and a
whitespace-only rawText yields a slide. -/
theorem C1_counterexample :
    (buildSlides "Intro text\n\nSecond point\n\n\nThird point").map SlideContent.content ≠
      ["Intro text", "Second point", "Third point"] ∧
    buildSlides "   " ≠ [] := by
  constructor <;> decide

/-- C1 amended: build splits rawText on each non-overlapping occurrence of
the exact two-newline separator, drops only blocks equal to the empty
string (whitespace-only blocks survive), and stores surviving blocks
verbatim; on the stated example this gives three slides whose third
content keeps a leading newline; empty rawText yields zero slides but
whitespace-only rawText yields one slide per non-empty block. -/
theorem C1_slide_derivation (rawText : String) :
    (buildSlides rawText).map SlideContent.content =
      (splitNN rawText).filter (fun b => b ≠ "") ∧
    (buildSlides "Intro text\n\nSecond point\n\n\nThird point").map SlideContent.content =
      ["Intro text", "Second point", "\nThird point"] ∧
    buildSlides "" = [] ∧
    (buildSlides "   ").map SlideContent.content = ["   "] :=
  ⟨buildSlides_map_content rawText, by decide, by decide, by decide⟩

/-- C2: the claim says rebuild resets currentSlideIndex to 0 and forces the
edit flag off; the slide-derivation effect only replaces the
presentation, so a session at index 2 in edit mode keeps both. -/
theorem C2_counterexample :
    (rebuild (Session.mk 2 true demoDeck) "x" "src" "T2" "id-1" "t1").currentSlideIndex ≠ 0 ∧
    (rebuild (Session.mk 2 true demoDeck) "x" "src" "T2" "id-1" "t1").isEditing = true := by
  constructor <;> decide

/-- C2 amended: rebuild replaces the live Presentation wholesale with the
freshly built deck, discarding any edits applied to the previous deck,
but it leaves currentSlideIndex and the edit-mode flag unchanged. -/
theorem C2_rebuild (s : Session) (rawText source title id createdAt : String) :
    (rebuild s rawText source title id createdAt).processedPresentation =
      build rawText title id createdAt ∧
    (rebuild s rawText source title id createdAt).currentSlideIndex = s.currentSlideIndex ∧
    (rebuild s rawText source title id createdAt).isEditing = s.isEditing ∧
    (∀ field value,
      rebuild (updateSlideContent s field value) rawText source title id createdAt =
        rebuild s rawText source title id createdAt) :=
  ⟨rfl, rfl, rfl, fun _ _ => rfl⟩

/-- C3: the claim says jumpTo clamps or ignores out-of-range indices; the
slide-dot handler runs setCurrentSlideIndex(index) unconditionally, so
jumping to 5 on a three-slide deck leaves the index out of bounds. -/
theorem C3_counterexample :
    (jumpTo (Session.mk 0 false demoDeck) 5).currentSlideIndex = 5 ∧
    ¬ ((jumpTo (Session.mk 0 false demoDeck) 5).currentSlideIndex ≤
        ((jumpTo (Session.mk 0 false demoDeck) 5).processedPresentation.slides.length : Int) - 1) := by
  constructor <;> decide

/-- C3 amended: jumpTo stores the supplied index unconditionally, with no
clamping and no ignoring, and changes nothing else; staying in bounds
relies on the view layer only supplying indices of existing slide dots. -/
theorem C3_jumpTo (s : Session) (index : Int) :
    (jumpTo s index).currentSlideIndex = index ∧
    (jumpTo s index).processedPresentation = s.processedPresentation ∧
    (jumpTo s index).isEditing = s.isEditing :=
  ⟨rfl, rfl, rfl⟩

/-- C9: the stored deck title is always the caller-supplied title; the
defaultTitle heuristic can differ from it and is never applied. -/
theorem C9_title (s : Session) (rawText source title id createdAt : String) :
    (build rawText title id createdAt).title = title ∧
    (rebuild s rawText source title id createdAt).processedPresentation.title = title ∧
    defaultTitle "notes.txt" "Demo" = "notes.txt" ∧
    ("notes.txt" : String) ≠ "Demo" ∧
    (rebuild s rawText "notes.txt" "Demo" id createdAt).processedPresentation.title = "Demo" :=
  ⟨rfl, rfl, by decide, by decide, rfl⟩

/-- C10: goToPreviousSlide and goToNextSlide leave the live Presentation and
the edit-mode flag unchanged; they touch only currentSlideIndex. -/
theorem C10_navigation_frame (s : Session) :
    (goToPreviousSlide s).processedPresentation = s.processedPresentation ∧
    (goToPreviousSlide s).isEditing = s.isEditing ∧
    (goToNextSlide s).processedPresentation = s.processedPresentation ∧
    (goToNextSlide s).isEditing = s.isEditing :=
  ⟨rfl, rfl, rfl, rfl⟩

/-- C4: on a non-empty deck with an in-range index, goToPreviousSlide and
goToNextSlide move the index by exactly one, clamped to the valid range,
are no-ops (hence idempotent) at the first and last slide, never wrap,
and never leave the valid range. -/
theorem C4_navigation (s : Session)
    (hlen : 0 < s.processedPresentation.slides.length)
    (h0 : 0 ≤ s.currentSlideIndex)
    (h1 : s.currentSlideIndex ≤ (s.processedPresentation.slides.length : Int) - 1) :
    (goToPreviousSlide s).currentSlideIndex = max 0 (s.currentSlideIndex - 1) ∧
    (goToNextSlide s).currentSlideIndex =
      min ((s.processedPresentation.slides.length : Int) - 1) (s.currentSlideIndex + 1) ∧
    (s.currentSlideIndex = 0 → goToPreviousSlide s = s) ∧
    (s.currentSlideIndex = (s.processedPresentation.slides.length : Int) - 1 →
      goToNextSlide s = s) ∧
    (0 ≤ (goToPreviousSlide s).currentSlideIndex ∧
      (goToPreviousSlide s).currentSlideIndex ≤
        (s.processedPresentation.slides.length : Int) - 1) ∧
    (0 ≤ (goToNextSlide s).currentSlideIndex ∧
      (goToNextSlide s).currentSlideIndex ≤
        (s.processedPresentation.slides.length : Int) - 1) := by
  have hp : (goToPreviousSlide s).currentSlideIndex =
      if s.currentSlideIndex > 0 then s.currentSlideIndex - 1 else s.currentSlideIndex := rfl
  have hn : (goToNextSlide s).currentSlideIndex =
      if s.currentSlideIndex < (s.processedPresentation.slides.length : Int) - 1
        then s.currentSlideIndex + 1 else s.currentSlideIndex := rfl
  refine ⟨?_, ?_, ?_, ?_, ⟨?_, ?_⟩, ⟨?_, ?_⟩⟩
  · rw [hp]; split_ifs <;> omega
  · rw [hn]; split_ifs <;> omega
  · intro h
    unfold goToPreviousSlide
    rw [if_neg (by omega)]
  · intro h
    unfold goToNextSlide
    rw [if_neg (by omega)]
  · rw [hp]; split_ifs <;> omega
  · rw [hp]; split_ifs <;> omega
  · rw [hn]; split_ifs <;> omega
  · rw [hn]; split_ifs <;> omega

/-- C4 witness: the navigation theorem applied to the concrete three-slide
demo deck at index 1. -/
theorem C4_navigation_witness :
    0 < (Session.mk 1 false demoDeck).processedPresentation.slides.length ∧
    (0 : Int) ≤ (Session.mk 1 false demoDeck).currentSlideIndex ∧
    (Session.mk 1 false demoDeck).currentSlideIndex ≤
      ((Session.mk 1 false demoDeck).processedPresentation.slides.length : Int) - 1 ∧
    (goToPreviousSlide (Session.mk 1 false demoDeck)).currentSlideIndex =
      max 0 ((Session.mk 1 false demoDeck).currentSlideIndex - 1) :=
  ⟨by decide, by decide, by decide,
    (C4_navigation (Session.mk 1 false demoDeck) (by decide) (by decide) (by decide)).1⟩

/-- C8: every slide built from rawText is titled Slide N where N is its
1-based position in the surviving (post-filter) sequence. -/
theorem C8_slide_numbering (rawText : String) (i : Nat) (sl : SlideContent)
    (h : (buildSlides rawText)[i]? = some sl) :
    sl.title = "Slide " ++ toString (i + 1) := by
  unfold buildSlides at h
  rw [List.getElem?_map, List.getElem?_enum] at h
  cases hx : ((splitNN rawText).filter (fun b => b ≠ ""))[i]? with
  | none => rw [hx] at h; simp at h
  | some a =>
    rw [hx] at h
    simp only [Option.map_some'] at h
    cases h
    rfl

/-- C8 witness: the numbering theorem applied to a concrete two-block input
at position 1. -/
theorem C8_slide_numbering_witness :
    (buildSlides "a\n\nb")[1]? = some ⟨"Slide 2", "b", "", {}⟩ ∧
    (⟨"Slide 2", "b", "", {}⟩ : SlideContent).title = "Slide " ++ toString (1 + 1) :=
  ⟨by decide, C8_slide_numbering "a\n\nb" 1 ⟨"Slide 2", "b", "", {}⟩ (by decide)⟩

/-- C5: with the index in range, updateSlideContent replaces exactly the
named field of exactly the slide at currentSlideIndex with value; the
other field, imageUrl and style of that slide, every other slide, the
deck metadata, the index and the edit-mode flag (which never gates the
operation) are all unchanged. -/
theorem C5_update_slide_field (s : Session) (field : SlideField) (value : String)
    (sl : SlideContent)
    (h0 : 0 ≤ s.currentSlideIndex)
    (h1 : s.currentSlideIndex < (s.processedPresentation.slides.length : Int))
    (hsl : s.processedPresentation.slides[s.currentSlideIndex.toNat]? = some sl) :
    (updateSlideContent s field value).currentSlideIndex = s.currentSlideIndex ∧
    (updateSlideContent s field value).isEditing = s.isEditing ∧
    (updateSlideContent s field value).processedPresentation.id =
      s.processedPresentation.id ∧
    (updateSlideContent s field value).processedPresentation.createdAt =
      s.processedPresentation.createdAt ∧
    (updateSlideContent s field value).processedPresentation.title =
      s.processedPresentation.title ∧
    (updateSlideContent s field value).processedPresentation.slides.length =
      s.processedPresentation.slides.length ∧
    (updateSlideContent s field value).processedPresentation.slides[s.currentSlideIndex.toNat]? =
      some (setSlideField sl field value) ∧
    (∀ j : Nat, j ≠ s.currentSlideIndex.toNat →
      (updateSlideContent s field value).processedPresentation.slides[j]? =
        s.processedPresentation.slides[j]?) ∧
    (setSlideField sl field value).imageUrl = sl.imageUrl ∧
    (setSlideField sl field value).style = sl.style ∧
    (field = SlideField.title →
      (setSlideField sl field value).title = value ∧
      (setSlideField sl field value).content = sl.content) ∧
    (field = SlideField.content →
      (setSlideField sl field value).content = value ∧
      (setSlideField sl field value).title = sl.title) := by
  have hidx : s.currentSlideIndex.toNat < s.processedPresentation.slides.length := by omega
  have hu : (updateSlideContent s field value).processedPresentation.slides =
      s.processedPresentation.slides.set s.currentSlideIndex.toNat
        (setSlideField sl field value) := by
    unfold updateSlideContent
    simp only [hsl]
  refine ⟨rfl, rfl, rfl, rfl, rfl, ?_, ?_, ?_, ?_, ?_, ?_, ?_⟩
  · rw [hu]; exact List.length_set _ _ _
  · rw [hu]; exact List.getElem?_set_self hidx
  · intro j hj
    rw [hu]
    exact List.getElem?_set_ne (Ne.symm hj)
  · cases field <;> rfl
  · cases field <;> rfl
  · intro h; subst h; exact ⟨rfl, rfl⟩
  · intro h; subst h; exact ⟨rfl, rfl⟩

/-- C5 witness: the frame theorem applied to the demo deck at index 0,
replacing the title field. -/
theorem C5_update_slide_field_witness :
    (Session.mk 0 false demoDeck).processedPresentation.slides[(0 : Int).toNat]? =
      some ⟨"Slide 1", "a", "", {}⟩ ∧
    (updateSlideContent (Session.mk 0 false demoDeck) SlideField.title "X").processedPresentation.slides[(0 : Int).toNat]? =
      some (setSlideField ⟨"Slide 1", "a", "", {}⟩ SlideField.title "X") :=
  ⟨by decide,
    (C5_update_slide_field (Session.mk 0 false demoDeck) SlideField.title "X"
      ⟨"Slide 1", "a", "", {}⟩ (by decide) (by decide) (by decide)).2.2.2.2.2.2.1⟩

/-- C6: from viewing, toggling enters edit mode with no data change and no
commit; toggling again exits edit mode and hands the current live deck
(edits included) to onSave exactly once, so the pair of calls commits
exactly once. -/
theorem C6_toggle_edit (s : Session) (h : s.isEditing = false) :
    (handleEditToggle true s).1.isEditing = true ∧
    (handleEditToggle true s).1.processedPresentation = s.processedPresentation ∧
    (handleEditToggle true s).1.currentSlideIndex = s.currentSlideIndex ∧
    (handleEditToggle true s).2 = [] ∧
    (handleEditToggle true (handleEditToggle true s).1).1.isEditing = false ∧
    (handleEditToggle true (handleEditToggle true s).1).2 =
      [(handleEditToggle true s).1.processedPresentation] ∧
    (handleEditToggle true s).2.length +
      (handleEditToggle true (handleEditToggle true s).1).2.length = 1 ∧
    (∀ field value,
      (handleEditToggle true (updateSlideContent (handleEditToggle true s).1 field value)).2 =
        [(updateSlideContent (handleEditToggle true s).1 field value).processedPresentation]) := by
  simp [handleEditToggle, updateSlideContent, h]

/-- C6 witness: the toggle theorem applied to a concrete viewing session. -/
theorem C6_toggle_edit_witness :
    (Session.mk 0 false demoDeck).isEditing = false ∧
    (handleEditToggle true (Session.mk 0 false demoDeck)).2.length +
      (handleEditToggle true (handleEditToggle true (Session.mk 0 false demoDeck)).1).2.length = 1 :=
  ⟨by decide,
    (C6_toggle_edit (Session.mk 0 false demoDeck) (by decide)).2.2.2.2.2.2.1⟩

/-- C7: the exported filename is the deck title with every whitespace run
collapsed to one underscore plus the .json suffix (so a title of My, two
spaces, Talk gives My_Talk.json, and a run mixing a space with a
non-breaking space U+00A0 also collapses to one underscore), and the
serialized value is a JSON object with keys id, createdAt, title, slides,
where slides is the array of slide objects each with keys title, content,
imageUrl, style. -/
theorem C7_export (p : Presentation) :
    (handleDownload p).1 = collapseWs p.title ++ ".json" ∧
    (handleDownload { p with title := "My  Talk" }).1 = "My_Talk.json" ∧
    (handleDownload { p with title := "My \u00A0Talk" }).1 = "My_Talk.json" ∧
    jsonKeys (handleDownload p).2 = ["id", "createdAt", "title", "slides"] ∧
    jsonField (handleDownload p).2 "slides" = some (Json.arr (p.slides.map slideJson)) ∧
    (∀ sl : SlideContent, jsonKeys (slideJson sl) = ["title", "content", "imageUrl", "style"]) := by
  refine ⟨rfl, ?_, ?_, rfl, ?_, fun sl => rfl⟩
  · show collapseWs "My  Talk" ++ ".json" = "My_Talk.json"
    decide
  · show collapseWs "My \u00A0Talk" ++ ".json" = "My_Talk.json"
    decide
  simp [handleDownload, presentationJson, jsonField, List.lookup]

end PresentAI
